import Mathlib

/-!
Verification of the logging-initialization facility (`lib/src/extras/logging.rs`).

The Rust source is shallowly embedded: pure fragments become Lean functions,
the process-wide atomic width counter becomes explicit state passing, and the
`fern::Dispatch` builder (an external substrate configured through its public
contract) is modelled as a record accumulating the directives the source issues
to it.  Machine integers are modelled as `Nat` (all quantities here are small
lengths and never overflow).
-/

namespace NimiqLogging

/-! ## Severity levels

`log::Level` and `log::LevelFilter` from the `log` crate. -/

/-- Rust `log::Level`: severity of a single record. -/
inductive Level where
  | error
  | warn
  | info
  | debug
  | trace
deriving DecidableEq, Repr

/-- Rust `log::LevelFilter`: a per-module severity threshold. -/
inductive LevelFilter where
  | off
  | error
  | warn
  | info
  | debug
  | trace
deriving DecidableEq, Repr

/-- Display name of a `log::Level`, as the `log` crate renders it. -/
def levelName : Level → String
  | .error => "ERROR"
  | .warn => "WARN"
  | .info => "INFO"
  | .debug => "DEBUG"
  | .trace => "TRACE"

/-! ## Module-Width Tracker

`static MAX_MODULE_WIDTH: AtomicUsize = AtomicUsize::new(20)` and
`fn max_module_width(target: &str) -> usize`. -/

/-- Initial value of the `MAX_MODULE_WIDTH` atomic. -/
def MAX_MODULE_WIDTH_INIT : Nat := 20

/-- Rust `max_module_width`, run atomically (no interference between its load and
its store): given the current value of the `MAX_MODULE_WIDTH` cell and the
target, returns the new cell value and the returned width.

    let mut max_width = MAX_MODULE_WIDTH.load(...);
    if max_width < target.len() \x7b MAX_MODULE_WIDTH.store(target.len()); max_width = target.len(); \x7d
    max_width
-/
def max_module_width (state : Nat) (target : String) : Nat × Nat :=
  let max_width := state
  if max_width < target.length then
    (target.length, target.length)
  else
    (state, max_width)

/-- The widths returned by observing a list of names one after another,
starting from cell value `state`. -/
def observeSeq (state : Nat) : List String → List Nat
  | [] => []
  | n :: rest =>
    let r := max_module_width state n
    r.2 :: observeSeq r.1 rest

/-! ### Interleaved execution of `max_module_width`

The body of `max_module_width` performs two separate shared-memory accesses:
a `load` and then (conditionally) a `store`.  Two concurrent callers are
modelled as two threads, each with a program counter (0 = about to load,
1 = loaded, about to conditionally store, 2 = done) and a register holding
the loaded value; a schedule is a list of booleans choosing which thread
performs its next access. -/

/-- Shared cell plus the two threads' local state. -/
structure ConcState where
  shared : Nat
  pc1 : Nat
  loaded1 : Nat
  pc2 : Nat
  loaded2 : Nat
deriving DecidableEq, Repr

/-- One shared-memory access by thread 1 (if `choose1`) or thread 2, each
running the body of `max_module_width` on its own target string. -/
def concStep (t1 t2 : String) (s : ConcState) (choose1 : Bool) : ConcState :=
  if choose1 then
    match s.pc1 with
    | 0 => { s with loaded1 := s.shared, pc1 := 1 }
    | 1 =>
      if s.loaded1 < t1.length then { s with shared := t1.length, pc1 := 2 }
      else { s with pc1 := 2 }
    | _ => s
  else
    match s.pc2 with
    | 0 => { s with loaded2 := s.shared, pc2 := 1 }
    | 1 =>
      if s.loaded2 < t2.length then { s with shared := t2.length, pc2 := 2 }
      else { s with pc2 := 2 }
    | _ => s

/-- Run a schedule from the initial state of the `MAX_MODULE_WIDTH` cell. -/
def concRun (t1 t2 : String) (sched : List Bool) : ConcState :=
  sched.foldl (concStep t1 t2) { shared := MAX_MODULE_WIDTH_INIT, pc1 := 0, loaded1 := 0, pc2 := 0, loaded2 := 0 }

/-! ## First-party module set and the `only_nimiq` filter -/

/-- Rust `NIMIQ_MODULES`, exactly the 33 entries of the source's `lazy_static` vec. -/
def NIMIQ_MODULES : List String := [
  "nimiq_accounts",
  "beserial",
  "nimiq_bls",
  "nimiq_blockchain",
  "nimiq_blockchain_albatross",
  "nimiq_block_production",
  "nimiq_block_production_albatross",
  "nimiq_block",
  "nimiq_block_albatross",
  "nimiq_block_base",
  "nimiq_account",
  "nimiq_transaction",
  "nimiq_client",
  "nimiq_collections",
  "nimiq_consensus",
  "nimiq_database",
  "nimiq_hash",
  "nimiq_key_derivation",
  "nimiq_keys",
  "nimiq_lib",
  "libargon2_sys",
  "nimiq_macros",
  "nimiq_mempool",
  "nimiq_messages",
  "nimiq_metrics_server",
  "nimiq_mnemonic",
  "nimiq_network",
  "nimiq_network_primitives",
  "nimiq_primitives",
  "nimiq_rpc_server",
  "nimiq_utils",
  "nimiq_validator",
  "nimiq_handel"
]

/-- The predicate of the `only_nimiq` filter:
`metadata.target().starts_with("nimiq")` (`str::starts_with`, expressed on
the character sequence). -/
def only_nimiq_keeps (target : String) : Bool :=
  "nimiq".data.isPrefixOf target.data

/-! ## Settings and command line

`LogSettings` and `CommandLine` live in `crate::config` (not under `src/`). -/

/-- A module-to-threshold mapping.  The source's `HashMap<String, LevelFilter>`
is modelled as the list of insertions in order; lookup takes the latest
insertion for a key (`tagsLookup`), which agrees with the map's
overwrite-on-insert semantics whenever keys are unique. -/
abbrev Tags := List (String × LevelFilter)

/-- Latest-insertion-wins lookup in a `Tags` mapping. -/
def tagsLookup (tags : Tags) (module : String) : Option LevelFilter :=
  (tags.reverse.find? (fun p => p.1 == module)).map Prod.snd

/-- Rust `HashMap::extend`: insert every pair, overwriting existing keys.  In the
insertion-list model this is appending; `tagsLookup` makes the late pairs
win. -/
def tagsExtend (tags : Tags) (pairs : List (String × LevelFilter)) : Tags :=
  tags ++ pairs

/-- Modelled from the spec: `LogSettings` (config-file-sourced; its Rust
definition is in `crate::config::config_file`, outside `src/`): optional
first-party default level, per-module tag overrides, optional output file
path, timestamp flag. -/
structure LogSettings where
  level : Option LevelFilter
  tags : Tags
  file : Option String
  timestamps : Bool
deriving DecidableEq, Repr

/-- Modelled from the spec: the `Default` instance used by
`settings_opt.cloned().unwrap_or_default()`: no level, empty tags, no file,
no timestamps. -/
def defaultLogSettings : LogSettings :=
  { level := none, tags := [], file := none, timestamps := false }

/-- Modelled from the spec: the logging-relevant fields of
`crate::config::command_line::CommandLine` (outside `src/`): optional level
override and optional list of (module, level) pairs. -/
structure CommandLine where
  log_level : Option LevelFilter
  log_tags : Option (List (String × LevelFilter))
deriving DecidableEq, Repr

/-! ## The dispatch builder

`fern::Dispatch` is the external logging substrate; the source configures it
through `format`, `level`, `level_for`, `chain` and `apply`.  It is modelled
as a record of the directives issued: the chosen format mode, the global
default threshold, the `level_for` directives in call order (per fern's
contract the most recent directive for a module wins), and the attached
sinks. -/

/-- An output destination attached with `chain`. -/
inductive Sink where
  | file (path : String)
  | stderr
deriving DecidableEq, Repr

/-- The directives accumulated on a `fern::Dispatch` builder. -/
structure Dispatch where
  /-- Holds `some ts` once `pretty_logging ts` installed the formatter. -/
  format : Option Bool
  defaultLevel : LevelFilter
  levels : List (String × LevelFilter)
  outputs : List Sink
deriving DecidableEq, Repr

/-- Rust `Dispatch::new()`: fern's fresh builder (default threshold Trace,
no directives). -/
def Dispatch.new : Dispatch :=
  { format := none, defaultLevel := .trace, levels := [], outputs := [] }

/-- Rust `Dispatch::level`: set the global default threshold. -/
def Dispatch.level (d : Dispatch) (l : LevelFilter) : Dispatch :=
  { d with defaultLevel := l }

/-- Rust `Dispatch::level_for`: record a per-module threshold directive. -/
def Dispatch.level_for (d : Dispatch) (module : String) (l : LevelFilter) : Dispatch :=
  { d with levels := d.levels ++ [(module, l)] }

/-- Rust `Dispatch::chain`: attach an output. -/
def Dispatch.chain (d : Dispatch) (s : Sink) : Dispatch :=
  { d with outputs := d.outputs ++ [s] }

/-- Rust `NimiqDispatch::pretty_logging`: install the pretty formatter, selecting
timestamped or plain mode. -/
def Dispatch.pretty_logging (d : Dispatch) (show_timestamps : Bool) : Dispatch :=
  { d with format := some show_timestamps }

/-- Rust `NimiqDispatch::level_for_nimiq`: one `level_for` per `NIMIQ_MODULES`
entry, in order. -/
def Dispatch.level_for_nimiq (d : Dispatch) (l : LevelFilter) : Dispatch :=
  NIMIQ_MODULES.foldl (fun builder module => builder.level_for module l) d

/-- The threshold a built dispatch applies to records from `module`: the most
recent `level_for` directive naming it, else the global default (fern's
documented resolution for an exact module name). -/
def Dispatch.effectiveLevel (d : Dispatch) (module : String) : LevelFilter :=
  match d.levels.reverse.find? (fun p => p.1 == module) with
  | some p => p.2
  | none => d.defaultLevel

/-- Rust `pub const DEFAULT_LEVEL: LevelFilter = LevelFilter::Info`. -/
def DEFAULT_LEVEL : LevelFilter := .info

/-! ## `initialize_logging` -/

/-- The environment `initialize_logging` runs in: which paths `fern::log_file`
can open, and whether `apply` (= `log::set_logger`) succeeds (it fails when a
global logger is already installed). -/
structure Env where
  fileOpens : String → Bool
  applyOk : Bool

/-- The error type: `Error::from(io::Error)` from a failed `log_file`, or
`Error::from(SetLoggerError)` from a failed `apply`. -/
inductive Error where
  | io (path : String)
  | setLogger
deriving DecidableEq, Repr

/-- Rust `fern::log_file(filename)`: open (append/create) the file, yielding a
sink, or an IO error. -/
def log_file (env : Env) (filename : String) : Except Error Sink :=
  if env.fileOpens filename then .ok (Sink.file filename)
  else .error (.io filename)

/-- The settings-merge prefix of `initialize_logging`: clone the file-sourced
settings (or default), then overwrite `level` from the command line if given
and extend `tags` with the command-line tag list if given. -/
def mergedSettings (command_line_opt : Option CommandLine) (settings_opt : Option LogSettings) : LogSettings :=
  let settings := settings_opt.getD defaultLogSettings
  match command_line_opt with
  | none => settings
  | some command_line =>
    let settings :=
      match command_line.log_level with
      | some log_level => { settings with level := some log_level }
      | none => settings
    match command_line.log_tags with
    | some log_tags => { settings with tags := tagsExtend settings.tags log_tags }
    | none => settings

/-- The builder phase of `initialize_logging`: pretty format, global default,
bulk first-party level, then one `level_for` per entry of the final tags. -/
def buildDispatch (settings : LogSettings) : Dispatch :=
  let dispatch := ((Dispatch.new.pretty_logging settings.timestamps).level DEFAULT_LEVEL).level_for_nimiq (settings.level.getD DEFAULT_LEVEL)
  settings.tags.foldl (fun d p => d.level_for p.1 p.2) dispatch

/-- Rust `initialize_logging`.  On success the value carries the dispatch that
`apply` installed as the process-wide logger; an error means nothing was
installed (`?` returns before `apply`). -/
def initialize_logging (env : Env) (command_line_opt : Option CommandLine) (settings_opt : Option LogSettings) : Except Error Dispatch :=
  let settings := mergedSettings command_line_opt settings_opt
  let dispatch := buildDispatch settings
  let chained : Except Error Dispatch :=
    match settings.file with
    | some filename =>
      match log_file env filename with
      | .ok sink => .ok (dispatch.chain sink)
      | .error e => .error e
    | none => .ok (dispatch.chain Sink.stderr)
  match chained with
  | .ok d => if env.applyOk then .ok d else .error .setLogger
  | .error e => .error e

/-- The caller-owned values behind the two shared references
`command_line_opt: Option<&CommandLine>` and `settings_opt: Option<&LogSettings>`. -/
structure CallerState where
  command_line : Option CommandLine
  settings : Option LogSettings
deriving DecidableEq, Repr

/-- Rust `initialize_logging` with the caller's referents threaded explicitly: the
body works on `settings_opt.cloned()`, so the returned caller state is what
the function left behind. -/
def initialize_logging_st (env : Env) (st : CallerState) : CallerState × Except Error Dispatch :=
  let settings := mergedSettings st.command_line st.settings
  let dispatch := buildDispatch settings
  let chained : Except Error Dispatch :=
    match settings.file with
    | some filename =>
      match log_file env filename with
      | .ok sink => .ok (dispatch.chain sink)
      | .error e => .error e
    | none => .ok (dispatch.chain Sink.stderr)
  match chained with
  | .ok d => if env.applyOk then (st, .ok d) else (st, .error .setLogger)
  | .error e => (st, .error e)

/-! ## The plain-mode record formatter

The closure installed by `pretty_logging` (the non-timestamped variant).
Color is the out-of-scope ANSI layer; the level renders as its plain name.
Rust's width specifier with the `<` alignment pads with spaces on the right
up to the requested width (and leaves longer strings alone). -/

/-- A run of `n` spaces. -/
def spaces (n : Nat) : String :=
  String.mk (List.replicate n ' ')

/-- Rust's left-aligned width padding: append spaces on the right up to
width `w`. -/
def padRust (s : String) (w : Nat) : String :=
  s ++ spaces (w - s.length)

/-- Greedy left-to-right split of a character sequence at `::` separators,
as Rust's `str::split("::")` produces its items (always at least one,
possibly empty, segment). -/
def splitSegs : List Char → List (List Char)
  | [] => [[]]
  | ':' :: ':' :: rest => [] :: splitSegs rest
  | c :: rest =>
    match splitSegs rest with
    | s :: ss => (c :: s) :: ss
    | [] => [[c]]

/-- Rust `record.target().split("::").last().unwrap()`: the last `::`-separated
segment of the target. -/
def lastSegment (target : String) : String :=
  String.mk ((splitSegs target.data).getLastD target.data)

/-- The plain-mode formatting closure of `pretty_logging`, with the
`MAX_MODULE_WIDTH` cell threaded: returns the new cell value and the line
handed to `out.finish`. -/
def pretty_logging_format (state : Nat) (level : Level) (target message : String) : Nat × String :=
  let target_text := lastSegment target
  let r := max_module_width state target_text
  let targetPadded := padRust target_text r.2
  (r.1, " " ++ padRust (levelName level) 5 ++ " " ++ targetPadded ++ " | " ++ message)

/-- The claim's reading of the padding: spaces added on the left. -/
def padOnLeft (s : String) (w : Nat) : String :=
  spaces (w - s.length) ++ s

/-- Padding as the amended claim states it: a string shorter than the width
is filled with spaces on the right; otherwise it is unchanged. -/
def padRightSpec (s : String) (w : Nat) : String :=
  if w ≤ s.length then s else s ++ spaces (w - s.length)

/-! ## The cause-chain logger

`failure::Fail` values are messages chained through optional causes;
`log_error_cause_chain` walks the chain.  `force_log!` routes each line to
the logger at the given level when that level is enabled, else straight to
stderr. -/

/-- A `failure::Fail` value: a message, with or without an underlying
cause. -/
inductive Fail where
  | leaf (msg : String)
  | chain (msg : String) (cause : Fail)
deriving DecidableEq, Repr

/-- The `Display` text of the error (`"\x7b\x7d"` on a `Fail`). -/
def Fail.message : Fail → String
  | .leaf msg => msg
  | .chain msg _ => msg

/-- Rust `Fail::cause`: the underlying cause, if any. -/
def Fail.cause : Fail → Option Fail
  | .leaf _ => none
  | .chain _ c => some c

/-- One emitted line: either through the logger at a level, or directly to
stderr. -/
inductive OutLine where
  | logged (lvl : Level) (text : String)
  | stderrLine (text : String)
deriving DecidableEq, Repr

/-- The text of an emitted line, wherever it went. -/
def OutLine.text : OutLine → String
  | .logged _ t => t
  | .stderrLine t => t

/-- Rust `force_log!(lvl, ...)`: `log!` when `log_enabled!(lvl)`, else
`eprintln!`. -/
def force_log (enabled : Bool) (lvl : Level) (text : String) : OutLine :=
  if enabled then .logged lvl text else .stderrLine text

/-- The `while let Some(cause) = fail.cause()` loop: one indented line per
cause, walking down the chain. -/
def causeLoop (enabled : Bool) : Fail → List OutLine
  | .leaf _ => []
  | .chain _ c => force_log enabled .error ("    " ++ c.message) :: causeLoop enabled c

/-- Rust `log_error_cause_chain`, with `enabled` the value of
`log_enabled!(Level::Error)`: the primary message; then, only when a cause
exists, the marker line and the cause walk. -/
def log_error_cause_chain (enabled : Bool) (fail : Fail) : List OutLine :=
  force_log enabled .error fail.message ::
    (if (fail.cause).isSome then
      force_log enabled .error "  caused by" :: causeLoop enabled fail
    else [])

/-- The messages of the causes of an error, in chain order, down to the first
cause-less error. -/
def causeMessages : Fail → List String
  | .leaf _ => []
  | .chain _ c => c.message :: causeMessages c

/-! ## Helper lemmas -/

/-- One observation both stores and returns the max of the old value and the
name's length. -/
lemma max_module_width_eq (s : Nat) (t : String) :
    max_module_width s t = (Nat.max s t.length, Nat.max s t.length) := by
  by_cases h : s < t.length
  · simp [max_module_width, h, Nat.max_eq_right (Nat.le_of_lt h)]
  · simp [max_module_width, h, Nat.max_eq_left (Nat.le_of_not_lt h)]

/-- Specification-side running maxima: the width after each prefix of the
sequence, seeded with `s`. -/
def runningWidths (s : Nat) : List String → List Nat
  | [] => []
  | n :: rest => Nat.max s n.length :: runningWidths (Nat.max s n.length) rest

lemma observeSeq_eq_runningWidths (s : Nat) (l : List String) :
    observeSeq s l = runningWidths s l := by
  induction l generalizing s with
  | nil => rfl
  | cons n rest ih =>
    simp only [observeSeq, runningWidths, max_module_width_eq]
    exact congrArg _ (ih _)

lemma runningWidths_getElem? (l : List String) (s i : Nat) (h : i < l.length) :
    (runningWidths s l)[i]? =
      some ((l.take (i + 1)).foldl (fun a n => Nat.max a n.length) s) := by
  induction l generalizing s i with
  | nil => simp at h
  | cons n rest ih =>
    cases i with
    | zero => simp [runningWidths]
    | succ j =>
      simp only [runningWidths, List.getElem?_cons_succ, List.take_succ_cons, List.foldl_cons]
      exact ih _ j (by simpa using h)

/-! ## Claim C1: concurrent observation -/

/-- A 30-character module name observed by thread 1. -/
def concTargetA : String := "aaaaaaaaaaaaaaaaaaaaaaaaaaaaaa"

/-- A 25-character module name observed by thread 2. -/
def concTargetB : String := "bbbbbbbbbbbbbbbbbbbbbbbbb"

/-- Claim C1: the update discipline of `max_module_width` is a plain load
followed by a store, not a compare-and-swap loop, and it loses updates.
Under the schedule (thread 1 loads, thread 2 loads, thread 1 stores,
thread 2 stores) both observations complete, yet the tracked width ends at
25 while the true maximum of the default and both observed lengths is 30. -/
theorem max_module_width_lost_update :
    (concRun concTargetA concTargetB [true, false, true, false]).pc1 = 2 ∧
    (concRun concTargetA concTargetB [true, false, true, false]).pc2 = 2 ∧
    (concRun concTargetA concTargetB [true, false, true, false]).shared = 25 ∧
    Nat.max MAX_MODULE_WIDTH_INIT (Nat.max concTargetA.length concTargetB.length) = 30 := by
  refine ⟨rfl, rfl, rfl, by decide⟩

/-! ## Claim C2: the first-party set and the two dependencies -/

/-- Claim C2 as stated is false: `NIMIQ_MODULES` does contain the low-level
dependency module `beserial` (and `libargon2_sys`), so not every identifier
in the set differs from the two dependencies. -/
theorem nimiq_modules_exclude_deps_counterexample :
    ¬ (∀ m ∈ NIMIQ_MODULES, m ≠ "beserial" ∧ m ≠ "libargon2_sys") := by
  decide

/-- Claim C2 (amended): `NIMIQ_MODULES` — the set used for bulk default-level
assignment by `level_for_nimiq` — contains both low-level dependency modules;
the two are excluded only by the `only_nimiq` filter, whose predicate keeps
targets starting with "nimiq" and rejects both. -/
theorem nimiq_modules_contain_deps_filter_excludes :
    "beserial" ∈ NIMIQ_MODULES ∧ "libargon2_sys" ∈ NIMIQ_MODULES ∧
    only_nimiq_keeps "beserial" = false ∧ only_nimiq_keeps "libargon2_sys" = false := by
  decide

/-! ## Claim C3: sequential observation -/

/-- Claim C3 as stated is false at the one-element sequence ["abc"]: the
first returned width is the default 20, not the maximum 3 of the lengths
observed so far. -/
theorem observeSeq_counterexample :
    (observeSeq MAX_MODULE_WIDTH_INIT ["abc"])[0]? ≠
      some ((([ "abc" ] : List String).take 1).foldl (fun a n => Nat.max a n.length) 0) := by
  decide

/-- Claim C3 (amended): sequentially observing a list of names from the
initial state, the width returned by the i-th observation equals the maximum
of the initial default (20) and the lengths of all names observed so far. -/
theorem observeSeq_returns_running_max (names : List String) (i : Nat) (h : i < names.length) :
    (observeSeq MAX_MODULE_WIDTH_INIT names)[i]? =
      some ((names.take (i + 1)).foldl (fun a n => Nat.max a n.length) MAX_MODULE_WIDTH_INIT) := by
  rw [observeSeq_eq_runningWidths]
  exact runningWidths_getElem? names MAX_MODULE_WIDTH_INIT i h

/-- Concrete instance of the amended C3: the second observation of the
sequence ["abc", 25-char name] returns 25 = max 20 3 25. -/
theorem observeSeq_returns_running_max_witness :
    (observeSeq MAX_MODULE_WIDTH_INIT ["abc", "cccccccccccccccccccccccxy"])[1]? = some 25 := by
  rw [observeSeq_returns_running_max ["abc", "cccccccccccccccccccccccxy"] 1 (by decide)]
  decide

/-! ## Helper lemmas on the dispatch builder -/

lemma foldl_level_for_pairs (L : List (String × LevelFilter)) (d : Dispatch) :
    L.foldl (fun b p => b.level_for p.1 p.2) d = { d with levels := d.levels ++ L } := by
  induction L generalizing d with
  | nil => simp
  | cons p t ih =>
    simp only [List.foldl_cons]
    rw [ih]
    simp [Dispatch.level_for]

lemma foldl_level_for_strings (ms : List String) (l : LevelFilter) (d : Dispatch) :
    ms.foldl (fun b m => b.level_for m l) d = { d with levels := d.levels ++ ms.map (fun m => (m, l)) } := by
  induction ms generalizing d with
  | nil => simp
  | cons m t ih =>
    simp only [List.foldl_cons]
    rw [ih]
    simp [Dispatch.level_for]

/-- The dispatch `initialize_logging` builds, written out: pretty format,
default level Info, one directive per first-party module at the bulk level,
then one directive per final tag entry, no outputs yet. -/
lemma buildDispatch_eq (settings : LogSettings) :
    buildDispatch settings =
      { format := some settings.timestamps,
        defaultLevel := DEFAULT_LEVEL,
        levels := NIMIQ_MODULES.map (fun m => (m, settings.level.getD DEFAULT_LEVEL)) ++ settings.tags,
        outputs := [] } := by
  unfold buildDispatch Dispatch.level_for_nimiq
  rw [foldl_level_for_strings, foldl_level_for_pairs]
  simp [Dispatch.new, Dispatch.pretty_logging, Dispatch.level]

lemma effectiveLevel_chain (d : Dispatch) (s : Sink) (m : String) :
    (d.chain s).effectiveLevel m = d.effectiveLevel m := rfl

/-- A directive list ending in a tags block resolves a module mapped by the
tags block to its tags value, whatever precedes. -/
lemma effectiveLevel_of_tags_lookup (fmt : Option Bool) (dl : LevelFilter)
    (outs : List Sink) (base : List (String × LevelFilter)) (tags : Tags)
    (m : String) (lv : LevelFilter) (h : tagsLookup tags m = some lv) :
    Dispatch.effectiveLevel ⟨fmt, dl, base ++ tags, outs⟩ m = lv := by
  unfold Dispatch.effectiveLevel
  simp only [List.reverse_append, List.find?_append]
  unfold tagsLookup at h
  rcases heq : tags.reverse.find? (fun p => p.1 == m) with _ | pr
  · rw [heq] at h; simp at h
  · rw [heq] at h
    simp only [Option.map_some', Option.some.injEq] at h
    simp [heq, Option.or, h]

lemma tagsLookup_extend_of_mem (tags : Tags) (ts : List (String × LevelFilter))
    (k : String) (lv : LevelFilter) (h : tagsLookup ts k = some lv) :
    tagsLookup (tagsExtend tags ts) k = some lv := by
  unfold tagsLookup tagsExtend at *
  simp only [List.reverse_append, List.find?_append]
  rcases heq : ts.reverse.find? (fun p => p.1 == k) with _ | pr
  · rw [heq] at h; simp at h
  · rw [heq] at h
    simp only [Option.map_some', Option.some.injEq] at h
    simp [heq, h]

lemma tagsLookup_extend_of_not_mem (tags : Tags) (ts : List (String × LevelFilter))
    (k : String) (h : tagsLookup ts k = none) :
    tagsLookup (tagsExtend tags ts) k = tagsLookup tags k := by
  unfold tagsLookup tagsExtend at *
  simp only [List.reverse_append, List.find?_append]
  rcases heq : ts.reverse.find? (fun p => p.1 == k) with _ | pr
  · simp [heq]
  · rw [heq] at h; simp at h

/-- Merging leaves the tags as the file tags extended by the command-line
pairs (the level override in between does not touch them). -/
lemma mergedSettings_tags_of_log_tags (cl : CommandLine) (ls : LogSettings)
    (ts : List (String × LevelFilter)) (h : cl.log_tags = some ts) :
    (mergedSettings (some cl) (some ls)).tags = tagsExtend ls.tags ts := by
  unfold mergedSettings
  cases hl : cl.log_level <;> simp [h, hl]

/-- Inversion of a successful `initialize_logging`: the installed dispatch is
the built one with exactly the sink the settings select. -/
lemma initialize_logging_ok_eq (env : Env) (cl : Option CommandLine)
    (ls : Option LogSettings) (d : Dispatch)
    (h : initialize_logging env cl ls = .ok d) :
    d = (buildDispatch (mergedSettings cl ls)).chain
      ((mergedSettings cl ls).file.elim Sink.stderr Sink.file) := by
  simp only [initialize_logging, log_file] at h
  cases hf : (mergedSettings cl ls).file with
  | some f =>
    rw [hf] at h
    by_cases hopen : env.fileOpens f
    · simp only [hopen, if_true] at h
      by_cases happ : env.applyOk
      · simp only [happ, if_true, Except.ok.injEq] at h
        rw [← h]; rfl
      · simp [happ] at h
    · simp [hopen] at h
  | none =>
    rw [hf] at h
    by_cases happ : env.applyOk
    · simp only [happ, if_true, Except.ok.injEq] at h
      rw [← h]; rfl
    · simp [happ] at h

/-! ## Claim C4: command-line tags win on key collision -/

/-- Claim C4: when the command line carries a tag list mapping module `m` to
`lv` (latest pair for `m` winning, per map insertion), a successful
`initialize_logging` gives `m` the threshold `lv` — the command-line pairs
are merged after the file tags and win on collision — while a key `k` the
command line does not mention keeps its file-sourced mapping. -/
theorem initialize_logging_commandline_tags_override (env : Env)
    (cl : CommandLine) (ls : LogSettings) (ts : List (String × LevelFilter))
    (m k : String) (lv : LevelFilter) (d : Dispatch)
    (hts : cl.log_tags = some ts)
    (hm : tagsLookup ts m = some lv)
    (hk : tagsLookup ts k = none)
    (hok : initialize_logging env (some cl) (some ls) = .ok d) :
    d.effectiveLevel m = lv ∧
    tagsLookup (mergedSettings (some cl) (some ls)).tags k = tagsLookup ls.tags k := by
  have htags := mergedSettings_tags_of_log_tags cl ls ts hts
  constructor
  · rw [initialize_logging_ok_eq env _ _ d hok, effectiveLevel_chain, buildDispatch_eq, htags]
    exact effectiveLevel_of_tags_lookup _ _ _ _ _ _ _ (tagsLookup_extend_of_mem _ _ _ _ hm)
  · rw [htags]
    exact tagsLookup_extend_of_not_mem _ _ _ hk

/-- An environment in which every file opens and `apply` succeeds. -/
def env_ok : Env := { fileOpens := fun _ => true, applyOk := true }

/-- Command line of the C4 instance: tags `[("moduleB", Debug)]`. -/
def cl_c4 : CommandLine := { log_level := none, log_tags := some [("moduleB", .debug)] }

/-- File settings of the C4 instance: `moduleB` at Error, `moduleC` at Warn. -/
def ls_c4 : LogSettings :=
  { level := none, tags := [("moduleB", .error), ("moduleC", .warn)], file := none, timestamps := false }

/-- The dispatch the C4 instance installs. -/
def d_c4 : Dispatch :=
  match initialize_logging env_ok (some cl_c4) (some ls_c4) with
  | .ok d => d
  | .error _ => Dispatch.new

/-- Concrete C4 instance: `moduleB` resolves to the command line's Debug
(not the file's Error) and `moduleC` keeps its file-sourced mapping. -/
theorem initialize_logging_commandline_tags_override_witness :
    d_c4.effectiveLevel "moduleB" = LevelFilter.debug ∧
    tagsLookup (mergedSettings (some cl_c4) (some ls_c4)).tags "moduleC" = tagsLookup ls_c4.tags "moduleC" :=
  initialize_logging_commandline_tags_override env_ok cl_c4 ls_c4
    [("moduleB", .debug)] "moduleB" "moduleC" .debug d_c4
    rfl (by decide) (by decide) rfl

/-! ## Claim C5: explicit tags override the first-party bulk level -/

/-- Claim C5: a module that is in the first-party set and is mapped by the
final merged tags resolves to the tags value: the per-tag directives are
issued after the bulk first-party directives, and the latest directive
wins. -/
theorem initialize_logging_tags_override_first_party (env : Env)
    (cl_opt : Option CommandLine) (ls_opt : Option LogSettings)
    (m : String) (lv : LevelFilter) (d : Dispatch)
    (_hmem : m ∈ NIMIQ_MODULES)
    (hm : tagsLookup (mergedSettings cl_opt ls_opt).tags m = some lv)
    (hok : initialize_logging env cl_opt ls_opt = .ok d) :
    d.effectiveLevel m = lv := by
  rw [initialize_logging_ok_eq env _ _ d hok, effectiveLevel_chain, buildDispatch_eq]
  exact effectiveLevel_of_tags_lookup _ _ _ _ _ _ _ hm

/-- File settings of the C5 instance: bulk first-party level Info, tag
`nimiq_client` at Warn. -/
def ls_c5 : LogSettings :=
  { level := some .info, tags := [("nimiq_client", .warn)], file := none, timestamps := false }

/-- The dispatch the C5 instance installs. -/
def d_c5 : Dispatch :=
  match initialize_logging env_ok none (some ls_c5) with
  | .ok d => d
  | .error _ => Dispatch.new

/-- Concrete C5 instance: the first-party module `nimiq_client`, tagged Warn
while the bulk first-party default is Info, resolves to Warn. -/
theorem initialize_logging_tags_override_first_party_witness :
    d_c5.effectiveLevel "nimiq_client" = LevelFilter.warn :=
  initialize_logging_tags_override_first_party env_ok none (some ls_c5)
    "nimiq_client" .warn d_c5 (by decide) (by decide) rfl

/-! ## Claim C6: a non-openable output file fails the build -/

/-- Claim C6: when the merged settings designate an output file that cannot
be opened, `initialize_logging` returns the IO error for that path — it
installs no pipeline (`apply` is never reached) and does not fall back to
the standard-error sink. -/
theorem initialize_logging_file_open_error (env : Env)
    (cl_opt : Option CommandLine) (ls_opt : Option LogSettings) (f : String)
    (hf : (mergedSettings cl_opt ls_opt).file = some f)
    (hopen : env.fileOpens f = false) :
    initialize_logging env cl_opt ls_opt = .error (.io f) := by
  simp [initialize_logging, log_file, hf, hopen]

/-- An environment in which no file opens. -/
def env_nofile : Env := { fileOpens := fun _ => false, applyOk := true }

/-- File settings of the C6 instance: log file in a non-creatable location. -/
def ls_c6 : LogSettings :=
  { level := none, tags := [], file := some "/nonexistent/app.log", timestamps := false }

/-- Concrete C6 instance: with the file non-creatable, the call returns the
IO error and installs nothing. -/
theorem initialize_logging_file_open_error_witness :
    initialize_logging env_nofile none (some ls_c6) = .error (.io "/nonexistent/app.log") :=
  initialize_logging_file_open_error env_nofile none (some ls_c6)
    "/nonexistent/app.log" rfl rfl

/-! ## Claim C7: exactly one sink -/

/-- Claim C7: every successfully built pipeline carries exactly one sink —
the designated file when the merged settings name one, the standard-error
stream otherwise. -/
theorem initialize_logging_single_sink (env : Env)
    (cl_opt : Option CommandLine) (ls_opt : Option LogSettings) (d : Dispatch)
    (hok : initialize_logging env cl_opt ls_opt = .ok d) :
    d.outputs = [(mergedSettings cl_opt ls_opt).file.elim Sink.stderr Sink.file] := by
  rw [initialize_logging_ok_eq env _ _ d hok, buildDispatch_eq]
  rfl

/-- File settings of the C7 instance: output to "app.log". -/
def ls_c7 : LogSettings :=
  { level := none, tags := [], file := some "app.log", timestamps := false }

/-- The dispatch the C7 instance installs. -/
def d_c7 : Dispatch :=
  match initialize_logging env_ok none (some ls_c7) with
  | .ok d => d
  | .error _ => Dispatch.new

/-- Concrete C7 instance: with `file = "app.log"` the single sink is that
file. -/
theorem initialize_logging_single_sink_witness :
    d_c7.outputs = [Sink.file "app.log"] :=
  initialize_logging_single_sink env_ok none (some ls_c7) d_c7 rfl

/-! ## Claim C10: the caller's arguments are not mutated -/

/-- Claim C10: `initialize_logging` leaves the caller-owned `CommandLine`
and `LogSettings` referents exactly as they were — the level overwrite and
tag merge happen on a private clone — and its result is the one computed
from the passed values. -/
theorem initialize_logging_frame (env : Env) (st : CallerState) :
    initialize_logging_st env st = (st, initialize_logging env st.command_line st.settings) := by
  unfold initialize_logging_st initialize_logging
  dsimp only
  split
  · split <;> rfl
  · rfl

/-! ## Claim C8: the cause-chain logger -/

lemma causeLoop_eq_map (enabled : Bool) (f : Fail) :
    causeLoop enabled f = (causeMessages f).map (fun m => force_log enabled .error ("    " ++ m)) := by
  induction f with
  | leaf msg => rfl
  | chain msg c ih =>
    simp only [causeLoop, causeMessages, List.map_cons]
    exact congrArg _ ih

lemma cause_isSome_iff_causeMessages_ne_nil (f : Fail) :
    (f.cause).isSome = true ↔ causeMessages f ≠ [] := by
  cases f <;> simp [Fail.cause, causeMessages]

/-- Claim C8: for every error, `log_error_cause_chain` emits exactly the
primary message, then — if and only if the error has at least one cause —
the "caused by" marker followed by one four-space-indented line per cause in
chain order, stopping at the first cause-less error; every line goes through
`force_log` at Error severity. -/
theorem log_error_cause_chain_lines (enabled : Bool) (fail : Fail) :
    log_error_cause_chain enabled fail =
      (fail.message ::
        (if causeMessages fail = [] then []
         else "  caused by" :: (causeMessages fail).map (fun m => "    " ++ m))).map
        (force_log enabled .error) := by
  unfold log_error_cause_chain
  by_cases h : (fail.cause).isSome
  · have hne : causeMessages fail ≠ [] := (cause_isSome_iff_causeMessages_ne_nil fail).mp h
    simp [h, hne, causeLoop_eq_map]
  · have hnil : causeMessages fail = [] := by
      by_contra hne
      exact h ((cause_isSome_iff_causeMessages_ne_nil fail).mpr hne)
    simp [h, hnil]

/-! ## Claim C9: the plain-mode line format -/

lemma padRust_eq_padRightSpec (s : String) (w : Nat) :
    padRust s w = padRightSpec s w := by
  unfold padRust padRightSpec
  by_cases h : w ≤ s.length
  · simp [Nat.sub_eq_zero_of_le h, spaces, h]
  · simp [h]

/-- Claim C9 as stated is false: at a record with level Info, target "nimiq"
and message "m" (tracked width 20), the produced line pads the level and the
target on the right, not on the left as the claim reads. -/
theorem pretty_logging_format_counterexample :
    (pretty_logging_format MAX_MODULE_WIDTH_INIT .info "nimiq" "m").2 ≠
      " " ++ padOnLeft (levelName .info) 5 ++ " " ++
        padOnLeft (lastSegment "nimiq") (max_module_width MAX_MODULE_WIDTH_INIT (lastSegment "nimiq")).2 ++
        " | " ++ "m" := by
  decide

/-- Claim C9 (amended): every plain-mode line is
" LEVEL target | message" with the severity name padded on the right
(left-aligned) to 5 characters and the last `::` segment of the record's
target padded on the right to the width the Module-Width Tracker returns for
it. -/
theorem pretty_logging_format_line (state : Nat) (level : Level) (target message : String) :
    (pretty_logging_format state level target message).2 =
      " " ++ padRightSpec (levelName level) 5 ++ " " ++
        padRightSpec (lastSegment target) (max_module_width state (lastSegment target)).2 ++
        " | " ++ message := by
  simp [pretty_logging_format, padRust_eq_padRightSpec]

end NimiqLogging
